import Mathlib

/-!
Verification development for a Spotify-clone fragment:
a backend statistics controller (`getStats` in stat.controller.js) and a
frontend chat store (zustand store wrapping a socket.io client).
Definitions are shallow embeddings of the JavaScript/TypeScript source.
-/

namespace StatsService

/-- A Song document; only the `artist` field matters to the aggregation.
MongoDB documents may lack the field, hence `Option`. -/
structure SongDoc where
  artist : Option String
  deriving DecidableEq, Repr

/-- An Album document; only the `artist` field matters to the aggregation. -/
structure AlbumDoc where
  artist : Option String
  deriving DecidableEq, Repr

/-- A User document (contents irrelevant to the stats endpoint). -/
structure UserDoc where
  id : String
  deriving DecidableEq, Repr

/-- The database state seen by the stats controller: the three collections. -/
structure DB where
  songs : List SongDoc
  albums : List AlbumDoc
  users : List UserDoc
  deriving DecidableEq, Repr

/-- `Model.countDocuments()`: number of documents in a collection. -/
def countDocuments {α : Type} (coll : List α) : Nat := coll.length

/-- The `$group` stage keyed on `$artist` after `$unionWith: albums`:
one group per distinct artist value across the concatenated stream. -/
def artistGroups (db : DB) : List (Option String) :=
  ((db.songs.map SongDoc.artist) ++ (db.albums.map AlbumDoc.artist)).dedup

/-- The full `Song.aggregate` pipeline of stat.controller.js:
`$unionWith` albums, `$group` by `$artist`, `$count "count"`.
The `$count` stage emits one document `\x7b count: n \x7d` when its input is
nonempty and no document at all when it is empty, so the result is modelled
as a list of at most one count. -/
def songAggregate (db : DB) : List Nat :=
  let groups := artistGroups db
  if groups.length = 0 then [] else [groups.length]

/-- The JSON body written by `res.status(200).json(...)`: exactly four fields. -/
structure StatsSummary where
  totalAlbums : Nat
  totalSongs : Nat
  totalUsers : Nat
  totalArtists : Nat
  deriving DecidableEq, Repr

/-- The HTTP response produced on the success path. -/
structure Response where
  status : Nat
  body : StatsSummary
  deriving DecidableEq, Repr

/-- Builds the response from the four read results, mirroring
`res.status(200).json(\x7b totalAlbums, totalSongs, totalUsers,
totalArtists: uniqueArtists[0]?.count || 0 \x7d)`. `uniqueArtists[0]?.count`
is the head of the aggregation result and `|| 0` supplies the default. -/
def mkStatsResponse (totalSongs totalAlbums totalUsers : Nat)
    (uniqueArtists : List Nat) : Response :=
  { status := 200
    body := { totalAlbums := totalAlbums
              totalSongs := totalSongs
              totalUsers := totalUsers
              totalArtists := uniqueArtists.head?.getD 0 } }

/-- `getStats` on the success path: the four reads of `Promise.all`
(`Song.countDocuments`, `Album.countDocuments`, `User.countDocuments`,
the artist aggregation) combined into the response. -/
def getStats (db : DB) : Response :=
  mkStatsResponse (countDocuments db.songs) (countDocuments db.albums)
    (countDocuments db.users) (songAggregate db)

/-- `getStats` with fallible reads: `Promise.all` rejects when any read
fails, the `catch` block passes the error to `next(error)` unchanged
(modelled by `Except.error`), and no success response is produced. -/
def getStatsE (rs ra ru : Except String Nat)
    (rag : Except String (List Nat)) : Except String Response := do
  let totalSongs ← rs
  let totalAlbums ← ra
  let totalUsers ← ru
  let uniqueArtists ← rag
  pure (mkStatsResponse totalSongs totalAlbums totalUsers uniqueArtists)

end StatsService

section StatsTheorems

open StatsService

/-- Claim C1: for every database state, the StatsSummary produced by
getStats satisfies totalArtists ≤ totalSongs + totalAlbums, and if both the
Song and Album collections are empty then totalArtists = 0. -/
theorem C1_stats_invariant (db : DB) :
    (getStats db).body.totalArtists ≤
      (getStats db).body.totalSongs + (getStats db).body.totalAlbums ∧
    (db.songs = [] → db.albums = [] → (getStats db).body.totalArtists = 0) := by
  constructor
  · simp only [getStats, mkStatsResponse, songAggregate]
    split
    · simp
    · have hsub :=
        (List.dedup_sublist
          ((db.songs.map SongDoc.artist) ++ (db.albums.map AlbumDoc.artist))).length_le
      simpa [artistGroups, countDocuments] using hsub
  · intro h1 h2
    simp [getStats, mkStatsResponse, songAggregate, artistGroups, h1, h2]

/-- Claim C1 witness: the invariant instantiated at a concrete empty
database, discharging the emptiness hypotheses. -/
theorem C1_stats_invariant_witness :
    (getStats { songs := [], albums := [], users := [] }).body.totalArtists = 0 :=
  (C1_stats_invariant { songs := [], albums := [], users := [] }).2 rfl rfl

/-- Claim C6: on every successful execution, getStats responds with HTTP
status 200 and a body of exactly the four fields totalAlbums, totalSongs,
totalUsers, totalArtists, where totalArtists is the group count from the
union-group-count aggregation pipeline and defaults to 0 when the
aggregation yields no groups. -/
theorem C6_success_response (db : DB) :
    (getStats db).status = 200 ∧
    (getStats db).body =
      { totalAlbums := countDocuments db.albums
        totalSongs := countDocuments db.songs
        totalUsers := countDocuments db.users
        totalArtists := (songAggregate db).head?.getD 0 } ∧
    (songAggregate db = [] → (getStats db).body.totalArtists = 0) := by
  refine ⟨rfl, rfl, ?_⟩
  intro h
  simp [getStats, mkStatsResponse, h]

/-- Claim C6 witness: the response shape at a concrete database where the
aggregation yields no groups. -/
theorem C6_success_response_witness :
    (getStats { songs := [], albums := [], users := [{ id := "u1" }] }).status = 200 ∧
    (getStats { songs := [], albums := [], users := [{ id := "u1" }] }).body.totalArtists = 0 :=
  ⟨(C6_success_response _).1, (C6_success_response _).2.2 rfl⟩

/-- Claim C7: if any of the four reads fails, getStats forwards the
failure unchanged (one of the read errors, verbatim) and produces no
success response and no partial result. -/
theorem C7_error_forwarding (rs ra ru : Except String Nat)
    (rag : Except String (List Nat))
    (h : (∃ e, rs = .error e) ∨ (∃ e, ra = .error e) ∨
         (∃ e, ru = .error e) ∨ (∃ e, rag = .error e)) :
    (∃ e, getStatsE rs ra ru rag = .error e ∧
      (rs = .error e ∨ ra = .error e ∨ ru = .error e ∨ rag = .error e)) ∧
    (∀ v, getStatsE rs ra ru rag ≠ .ok v) := by
  have main : ∃ e, getStatsE rs ra ru rag = .error e ∧
      (rs = .error e ∨ ra = .error e ∨ ru = .error e ∨ rag = .error e) := by
    cases rs with
    | error e => exact ⟨e, rfl, Or.inl rfl⟩
    | ok vs =>
      cases ra with
      | error e => exact ⟨e, rfl, Or.inr (Or.inl rfl)⟩
      | ok va =>
        cases ru with
        | error e => exact ⟨e, rfl, Or.inr (Or.inr (Or.inl rfl))⟩
        | ok vu =>
          cases rag with
          | error e => exact ⟨e, rfl, Or.inr (Or.inr (Or.inr rfl))⟩
          | ok vg =>
            rcases h with ⟨e, he⟩ | ⟨e, he⟩ | ⟨e, he⟩ | ⟨e, he⟩ <;> simp at he
  obtain ⟨e, he, hor⟩ := main
  refine ⟨⟨e, he, hor⟩, fun v hv => ?_⟩
  rw [he] at hv
  exact Except.noConfusion hv

/-- Claim C7 witness: a failing song count is forwarded unchanged at
concrete inputs. -/
theorem C7_error_forwarding_witness :
    (∃ e, getStatsE (.error "db down") (.ok 2) (.ok 3) (.ok [1]) = .error e ∧
      ((.error "db down" : Except String Nat) = .error e ∨
       (.ok 2 : Except String Nat) = .error e ∨
       (.ok 3 : Except String Nat) = .error e ∨
       (.ok [1] : Except String (List Nat)) = .error e)) ∧
    (∀ v, getStatsE (.error "db down") (.ok 2) (.ok 3) (.ok [1]) ≠ .ok v) :=
  C7_error_forwarding _ _ _ _ (Or.inl ⟨"db down", rfl⟩)

end StatsTheorems

namespace ChatClient

/-- A roster entry fetched from `GET /users`; only identity matters here. -/
structure User where
  id : String
  deriving DecidableEq, Repr

/-- A chat message as carried by the transport and the store. -/
structure Message where
  receiverId : String
  senderId : String
  content : String
  deriving DecidableEq, Repr

/-- A JavaScript `Set<string>`: insertion-ordered, duplicates collapsed.
Modelled as a duplicate-free list. `setInsert` mirrors `Set.prototype.add`
(no effect when present, appended when absent). -/
def setInsert (s : List String) (x : String) : List String :=
  if x ∈ s then s else s ++ [x]

/-- `new Set(xs)` for an array `xs`: insert every element in order. -/
def setOfList (xs : List String) : List String :=
  xs.foldl setInsert []

/-- `Set.prototype.delete`: remove the element. -/
def setDelete (s : List String) (x : String) : List String :=
  s.filter (fun y => y ≠ x)

/-- `Map.prototype.set` on a JavaScript `Map<string,string>` modelled as an
insertion-ordered association list: update in place when the key exists,
append otherwise. -/
def mapSet (m : List (String × String)) (k v : String) : List (String × String) :=
  if m.any (fun p => p.1 = k) then
    m.map (fun p => if p.1 = k then (k, v) else p)
  else m ++ [(k, v)]

/-- `new Map(pairs)` for an array of key-value pairs: set every pair in order. -/
def mapOfList (ps : List (String × String)) : List (String × String) :=
  ps.foldl (fun m p => mapSet m p.1 p.2) []

/-- The `ChatStore` zustand state. `socket` records whether a transport
handle is present (the module always creates one, but `sendMessage` guards
on it). -/
structure ChatStore where
  users : List User
  isLoading : Bool
  error : Option String
  socket : Option Unit
  isConnected : Bool
  onlineUsers : List String
  userActivities : List (String × String)
  messages : List Message
  selectedUser : Option User
  deriving DecidableEq, Repr

/-- The initial store state from `create<ChatStore>(...)`: empty
collections, not loading, no error, the shared socket handle present,
disconnected. -/
def initialStore : ChatStore :=
  { users := []
    isLoading := false
    error := none
    socket := some ()
    isConnected := false
    onlineUsers := []
    userActivities := []
    messages := []
    selectedUser := none }

/-- The seven inbound socket events the store listens for. -/
inductive SocketEvent where
  | usersOnline (users : List String)
  | activities (acts : List (String × String))
  | userConnected (userId : String)
  | userDisconnected (userId : String)
  | receiveMessage (m : Message)
  | messageSent (m : Message)
  | activityUpdated (userId : String) (activity : String)
  deriving DecidableEq, Repr

/-- The event handlers registered in `initSocket`, as a state reducer:
each inbound event maps to one pure store update. -/
def handleEvent (s : ChatStore) (e : SocketEvent) : ChatStore :=
  match e with
  | .usersOnline users => { s with onlineUsers := setOfList users }
  | .activities acts => { s with userActivities := mapOfList acts }
  | .userConnected userId =>
      { s with onlineUsers := setInsert s.onlineUsers userId }
  | .userDisconnected userId =>
      { s with onlineUsers := setDelete s.onlineUsers userId }
  | .receiveMessage m => { s with messages := s.messages ++ [m] }
  | .messageSent m => { s with messages := s.messages ++ [m] }
  | .activityUpdated userId activity =>
      { s with userActivities := mapSet s.userActivities userId activity }

/-- Observable actions performed on the shared transport handle. -/
inductive SocketAction where
  | setAuth (userId : String)
  | connect
  | emitUserConnected (userId : String)
  | registerHandler (eventName : String)
  | emitSendMessage (receiverId : String) (senderId : String) (content : String)
  | disconnect
  deriving DecidableEq, Repr

/-- Recognizes `socket.on(...)` registrations in an action trace. -/
def isRegisterHandler : SocketAction → Bool
  | .registerHandler _ => true
  | _ => false

/-- `initSocket(userId)`: when not connected, set auth, connect, emit
`user_connected`, register the seven handlers, then mark connected; when
already connected, do nothing at all. Returns the new store state and the
trace of transport actions. -/
def initSocket (userId : String) (s : ChatStore) : ChatStore × List SocketAction :=
  if !s.isConnected then
    ({ s with isConnected := true },
     [SocketAction.setAuth userId,
      SocketAction.connect,
      SocketAction.emitUserConnected userId,
      SocketAction.registerHandler "users_online",
      SocketAction.registerHandler "activities",
      SocketAction.registerHandler "user_connected",
      SocketAction.registerHandler "user_disconnected",
      SocketAction.registerHandler "receive_message",
      SocketAction.registerHandler "message_sent",
      SocketAction.registerHandler "activity_updated"])
  else (s, [])

/-- `disconnectSocket()`: when connected, disconnect the transport and mark
disconnected; otherwise do nothing. -/
def disconnectSocket (s : ChatStore) : ChatStore × List SocketAction :=
  if s.isConnected then
    ({ s with isConnected := false }, [SocketAction.disconnect])
  else (s, [])

/-- `sendMessage(receiverId, senderId, content)`: no-op when the store has
no transport handle, otherwise a single `send_message` emission; the store
state is returned unchanged in both cases (no optimistic append). -/
def sendMessage (s : ChatStore) (receiverId senderId content : String) :
    ChatStore × List SocketAction :=
  match s.socket with
  | none => (s, [])
  | some _ => (s, [SocketAction.emitSendMessage receiverId senderId content])

/-- Outcome of an awaited HTTP request: the response data, or the
server-provided error message (`error.response.data.message`). -/
inductive HttpResult (α : Type) where
  | ok (data : α)
  | httpError (message : String)
  deriving DecidableEq, Repr

/-- The first `set` of `fetchUsers`: loading flag raised and error cleared
before the GET is issued. -/
def fetchUsersStart (s : ChatStore) : ChatStore :=
  { s with isLoading := true, error := none }

/-- The try/catch/finally tail of `fetchUsers`: replace `users` on success,
record the server message on failure, always clear the loading flag. -/
def fetchUsersFinish (s : ChatStore) (r : HttpResult (List User)) : ChatStore :=
  let s2 := match r with
    | .ok data => { s with users := data }
    | .httpError msg => { s with error := some msg }
  { s2 with isLoading := false }

/-- `fetchUsers()` end to end, parametrized by the HTTP outcome. -/
def fetchUsers (s : ChatStore) (r : HttpResult (List User)) : ChatStore :=
  fetchUsersFinish (fetchUsersStart s) r

/-- The first `set` of `fetchMessages`: loading flag raised and error
cleared before the GET is issued. -/
def fetchMessagesStart (s : ChatStore) : ChatStore :=
  { s with isLoading := true, error := none }

/-- The try/catch/finally tail of `fetchMessages`: replace `messages` on
success, record the server message on failure, always clear the loading
flag. -/
def fetchMessagesFinish (s : ChatStore) (r : HttpResult (List Message)) : ChatStore :=
  let s2 := match r with
    | .ok data => { s with messages := data }
    | .httpError msg => { s with error := some msg }
  { s2 with isLoading := false }

/-- `fetchMessages(userId)` end to end, parametrized by the HTTP outcome. -/
def fetchMessages (s : ChatStore) (r : HttpResult (List Message)) : ChatStore :=
  fetchMessagesFinish (fetchMessagesStart s) r

/-- `setSelectedUser(user | none)`: pure assignment. -/
def setSelectedUser (s : ChatStore) (u : Option User) : ChatStore :=
  { s with selectedUser := u }

end ChatClient

section ChatTheorems

open ChatClient

/-- Claim C2: initSocket is idempotent: while isConnected is true it
returns the state unchanged with an empty action trace (no connection
attempt, no emission, no registration); consequently two successive calls
starting disconnected emit `user_connected` exactly once and register
exactly seven handlers. -/
theorem C2_initSocket_idempotent (s : ChatStore) (u : String) :
    (s.isConnected = true → initSocket u s = (s, [])) ∧
    (s.isConnected = false →
      ((initSocket u s).2 ++ (initSocket u (initSocket u s).1).2).count
          (SocketAction.emitUserConnected u) = 1 ∧
      ((initSocket u s).2 ++ (initSocket u (initSocket u s).1).2).countP
          isRegisterHandler = 7) := by
  constructor
  · intro h
    simp [initSocket, h]
  · intro h
    constructor
    · simp [initSocket, h, List.count_cons, List.count_nil, isRegisterHandler,
        beq_iff_eq]
    · simp [initSocket, h, List.countP_cons, isRegisterHandler]

/-- Claim C2 witness: both parts at concrete inputs: a connected store is
left untouched, and from the initial (disconnected) store two calls emit
once and register seven handlers. -/
theorem C2_initSocket_idempotent_witness :
    initSocket "u1" { initialStore with isConnected := true } =
      ({ initialStore with isConnected := true }, []) ∧
    ((initSocket "u1" initialStore).2 ++
        (initSocket "u1" (initSocket "u1" initialStore).1).2).count
        (SocketAction.emitUserConnected "u1") = 1 ∧
    ((initSocket "u1" initialStore).2 ++
        (initSocket "u1" (initSocket "u1" initialStore).1).2).countP
        isRegisterHandler = 7 :=
  ⟨(C2_initSocket_idempotent { initialStore with isConnected := true } "u1").1 rfl,
   (C2_initSocket_idempotent initialStore "u1").2 rfl⟩

/-- Claim C3: fetchUsers raises the loading flag before the GET, replaces
users wholesale on success, on HTTP failure leaves users unchanged and
sets error to the server-provided message, and in every outcome leaves
isLoading false after completion. -/
theorem C3_fetchUsers_discipline (s : ChatStore) (r : HttpResult (List User)) :
    (fetchUsersStart s).isLoading = true ∧
    (fetchUsers s r).isLoading = false ∧
    (∀ data, r = .ok data → (fetchUsers s r).users = data) ∧
    (∀ msg, r = .httpError msg →
      (fetchUsers s r).users = s.users ∧ (fetchUsers s r).error = some msg) := by
  refine ⟨rfl, ?_, ?_, ?_⟩
  · cases r <;> rfl
  · intro data hr
    subst hr
    rfl
  · intro msg hr
    subst hr
    exact ⟨rfl, rfl⟩

/-- Claim C3 witness: the discipline at a concrete prior state and a
concrete HTTP failure carrying a server message. -/
theorem C3_fetchUsers_discipline_witness :
    (fetchUsers { initialStore with users := [{ id := "a" }] }
        (.httpError "boom")).users = [{ id := "a" }] ∧
    (fetchUsers { initialStore with users := [{ id := "a" }] }
        (.httpError "boom")).error = some "boom" ∧
    (fetchUsers { initialStore with users := [{ id := "a" }] }
        (.httpError "boom")).isLoading = false := by
  have h := C3_fetchUsers_discipline
    { initialStore with users := [{ id := "a" }] } (.httpError "boom")
  exact ⟨(h.2.2.2 "boom" rfl).1, (h.2.2.2 "boom" rfl).2, h.2.1⟩

/-- Claim C4: users_online replaces onlineUsers wholesale with the
received set, user_connected adds the received userId, user_disconnected
removes it; and delivering users_online(["a","b"]) then
user_disconnected("a") from any prior state yields onlineUsers = \x7b"b"\x7d. -/
theorem C4_presence_handlers (s : ChatStore) (us : List String) (u : String) :
    (handleEvent s (.usersOnline us)).onlineUsers = setOfList us ∧
    (handleEvent s (.userConnected u)).onlineUsers = setInsert s.onlineUsers u ∧
    (handleEvent s (.userDisconnected u)).onlineUsers = setDelete s.onlineUsers u ∧
    (handleEvent (handleEvent s (.usersOnline ["a", "b"]))
        (.userDisconnected "a")).onlineUsers = ["b"] := by
  refine ⟨rfl, rfl, rfl, ?_⟩
  simp [handleEvent, setOfList, setInsert, setDelete]

/-- Claim C5: activities replaces userActivities wholesale with the
received pairs, activity_updated sets only the entry for the given userId;
and delivering activities([["x","Idle"],["y","Idle"]]) then
activity_updated(x, Playing) from any prior state yields the map
\x7bx: "Playing", y: "Idle"\x7d. -/
theorem C5_activity_handlers (s : ChatStore) (acts : List (String × String))
    (u a : String) :
    (handleEvent s (.activities acts)).userActivities = mapOfList acts ∧
    (handleEvent s (.activityUpdated u a)).userActivities =
      mapSet s.userActivities u a ∧
    (handleEvent (handleEvent s (.activities [("x", "Idle"), ("y", "Idle")]))
        (.activityUpdated "x" "Playing")).userActivities =
      [("x", "Playing"), ("y", "Idle")] := by
  refine ⟨rfl, rfl, ?_⟩
  simp [handleEvent, mapOfList, mapSet]

/-- Claim C8: sendMessage leaves the entire store state unchanged in every
case; with no transport handle it performs no emission (and, being a total
function, does not throw); with a handle it emits exactly one send_message
event carrying the three fields. -/
theorem C8_sendMessage_frame (s : ChatStore) (r sn c : String) :
    (sendMessage s r sn c).1 = s ∧
    (s.socket = none → (sendMessage s r sn c).2 = []) ∧
    (s.socket ≠ none →
      (sendMessage s r sn c).2 = [SocketAction.emitSendMessage r sn c]) := by
  refine ⟨?_, ?_, ?_⟩
  · cases h : s.socket <;> simp [sendMessage, h]
  · intro h
    simp [sendMessage, h]
  · intro h
    cases hs : s.socket with
    | none => exact absurd hs h
    | some v => simp [sendMessage, hs]

/-- Claim C8 witness: both branches at concrete stores: no handle means no
emission and no state change; a handle means exactly one emission and no
state change. -/
theorem C8_sendMessage_frame_witness :
    (sendMessage { initialStore with socket := none } "r" "s" "hi").1 =
      { initialStore with socket := none } ∧
    (sendMessage { initialStore with socket := none } "r" "s" "hi").2 = [] ∧
    (sendMessage initialStore "r" "s" "hi").1 = initialStore ∧
    (sendMessage initialStore "r" "s" "hi").2 =
      [SocketAction.emitSendMessage "r" "s" "hi"] := by
  have h1 := C8_sendMessage_frame { initialStore with socket := none } "r" "s" "hi"
  have h2 := C8_sendMessage_frame initialStore "r" "s" "hi"
  exact ⟨h1.1, h1.2.1 rfl, h2.1, h2.2.2 (by simp [initialStore])⟩

/-- Claim C10: both fetchUsers and fetchMessages reset the store error
field to null in their first state update, before the HTTP request is
issued, regardless of the fetch outcome. -/
theorem C10_error_reset (s : ChatStore) :
    (fetchUsersStart s).error = none ∧ (fetchMessagesStart s).error = none :=
  ⟨rfl, rfl⟩

end ChatTheorems
